import Mathlib

set_option maxRecDepth 8192

/-!
Shallow embedding of the Stroy_K Telegram bot services
(`services/ai_service.py`, `services/logger.py`, `services/rag_service.py`,
`handlers/voice.py`, `models/violation.py`) and proofs about them.

Machine strings are modelled by Lean `String` (Python `str` is a sequence of
code points, `len` = `String.length`, slicing = `String.take`); Python floats
are modelled by `ℚ`; fallible calls are modelled by `Except String`.
-/

namespace StroyK

/-- Data model of `models/violation.py` `RAGChunk` (pydantic): one retrieved
fragment with citation metadata and a similarity score.  The `keywords`
keyword passed at one construction site is not a declared field of the
pydantic model and is discarded by it, so it is not modelled. -/
structure RAGChunk where
  document_id : String
  document_title : String
  document_number : String
  clause_number : String
  clause_text : String
  relevance_score : ℚ
deriving DecidableEq

/-- Data model of `models/violation.py` `ViolationResponse`: the analyzer
result. -/
structure ViolationResponse where
  corrected_description : String
  document_info : String
  suggestions : String
  success : Bool
  error_message : Option String
deriving DecidableEq

/-- Embedding of `AIService._parse_ai_response` (ai_service.py lines
130-189), parameterised by the outcome of the three regex section
extractions: `corrected0`, `document0`, `suggestions0` are the stripped
captures of the labels "Скорректированное описание:", "Нормативный
документ:", "Предлагаемые меры по устранению:", and are `""` exactly when
the label fails to parse (a failed `re.search` and an empty stripped capture
both leave the Python variable `""`).  The body below transcribes the
fallback logic of lines 171-189 verbatim. -/
def parse_ai_response (response : String) (chunks : List RAGChunk)
    (corrected0 document0 suggestions0 : String) : ViolationResponse :=
  let corrected_description :=
    if corrected0 = "" ∧ document0 = "" ∧ suggestions0 = "" then response
    else corrected0
  let document_info :=
    if document0 = "" then
      match chunks with
      | [] => document0
      | best :: _ =>
        best.document_title ++ ", " ++ best.document_number ++ ", " ++
          best.clause_number
    else document0
  let suggestions :=
    if suggestions0 = "" then
      "Требуется дополнительный анализ для определения мер по устранению"
    else suggestions0
  { corrected_description := corrected_description
    document_info := document_info
    suggestions := suggestions
    success := true
    error_message := none }

/-- Model of Python `str.strip()`: remove leading and trailing whitespace
characters (space, tab, carriage return, line feed) from a string. -/
def pyStrip (s : String) : String :=
  (((s.data.dropWhile Char.isWhitespace).reverse.dropWhile
      Char.isWhitespace).reverse).asString

/-- Embedding of `AIService._get_openai_response` (ai_service.py lines
93-117).  The remote chat-completion call is modelled by its outcome
`call : Except String String` (`Except.ok content` for a returned message
content, `Except.error e` for a raised exception with text `e`).  On
success the content is stripped of surrounding whitespace (`.strip()`,
modelled by `pyStrip`); on failure the exception is re-raised with the
fixed prefix. -/
def get_openai_response (call : Except String String) : Except String String :=
  match call with
  | Except.ok content => Except.ok (pyStrip content)
  | Except.error e =>
      Except.error ("Ошибка получения ответа от OpenAI: " ++ e)

/-- Embedding of `AIService.analyze_violation` (ai_service.py lines 16-47),
parameterised by the model-call outcome `call` and by the regex extraction
function `extract` (mapping the parsed reply to the three stripped section
captures, see `parse_ai_response`).  Any exception raised by the call is
caught and turned into the fixed placeholder response of lines 40-47. -/
def analyze_violation (call : Except String String)
    (extract : String → String × String × String)
    (chunks : List RAGChunk) : ViolationResponse :=
  match get_openai_response call with
  | Except.error e =>
      { corrected_description := "Ошибка анализа нарушения"
        document_info := "Не удалось определить нормативный документ"
        suggestions := "Попробуйте повторить описание нарушения"
        success := false
        error_message := some e }
  | Except.ok response =>
      let t := extract response
      parse_ai_response response chunks t.1 t.2.1 t.2.2

/-- Data model of the chunk dictionaries stored in `Violation.chunks`
(`models/violation.py` line 18: `List[dict]`): each entry is the `dict()`
dump of a `RAGChunk` as read back by `LoggerService._format_chunks` via
`chunk.get(key, '')`.  A missing key is `none` and defaults to `""`. -/
structure ChunkDict where
  document_title : Option String
  document_number : Option String
  clause_number : Option String
  clause_text : Option String
deriving DecidableEq

/-- Embedding of the clause-text truncation of `LoggerService._format_chunks`
(logger.py lines 113-115): text over 200 characters is cut to its first 200
characters plus an ellipsis marker, shorter text passes through. -/
def truncate200 (t : String) : String :=
  if t.length > 200 then t.take 200 ++ "..." else t

/-- Embedding of the per-chunk rendering of `LoggerService._format_chunks`
(logger.py lines 112-121): the f-string built for chunk number `idx`
(1-based). -/
def renderChunk (idx : Nat) (c : ChunkDict) : String :=
  "Чанк " ++ toString idx ++ ":\n" ++
    "Документ: " ++ c.document_title.getD "" ++ " " ++
    c.document_number.getD "" ++ ", п." ++ c.clause_number.getD "" ++ "\n" ++
    "Текст: " ++ truncate200 (c.clause_text.getD "")

/-- Embedding of the rendering loop of `LoggerService._format_chunks`
(`for idx, chunk in enumerate(chunks[:3], 1)`), applied to an already
truncated list; `idx` is the 1-based counter. -/
def render_chunks_go : Nat → List ChunkDict → List String
  | _, [] => []
  | idx, c :: rest => renderChunk idx c :: render_chunks_go (idx + 1) rest

/-- Embedding of the padding loop of `LoggerService._format_chunks`
(logger.py lines 124-125): `while len(formatted_chunks) < 3: append("")`. -/
def pad3 (l : List String) : List String :=
  if _h : l.length < 3 then pad3 (l ++ [""]) else l
termination_by 3 - l.length
decreasing_by simp only [List.length_append, List.length_cons, List.length_nil]; omega

/-- Embedding of `LoggerService._format_chunks` (logger.py lines 99-127):
render at most the first 3 chunks, then pad the list to exactly 3 slots
with empty strings. -/
def format_chunks (chunks : List ChunkDict) : List String :=
  pad3 (render_chunks_go 1 (chunks.take 3))

/-- Fixed separator joining rendered chunks in
`LoggerService._format_violation_data` (logger.py line 81). -/
def chunkSeparator : String := "\n\n====================\n\n"

/-- Embedding of the joined chunk cell of
`LoggerService._format_violation_data` (logger.py lines 80-82):
`'...'.join([c for c in chunks_text if c])` — non-empty rendered slots are
kept and joined with the fixed separator. -/
def joined_chunks (chunks : List ChunkDict) : String :=
  String.intercalate chunkSeparator
    ((format_chunks chunks).filter (fun c => c ≠ ""))

/-- Embedding of `LoggerService._format_violation_data` (logger.py lines
67-97): the 6-cell violation row. -/
def format_violation_data (timestamp original_text response_text model_name :
    String) (chunks : List ChunkDict) : List String :=
  [timestamp, "", original_text, response_text, joined_chunks chunks,
    model_name]

/-- Embedding of the actor-description cell of `LoggerService.log_error`
(logger.py line 150): `f"Ошибка пользователя N" if user_id else
"Системная ошибка"`.  Python truthiness makes both `None` and `0` fall to
the system-error label. -/
def error_actor : Option Int → String
  | some uid =>
      if uid = 0 then "Системная ошибка"
      else "Ошибка пользователя " ++ toString uid
  | none => "Системная ошибка"

/-- Embedding of the row appended by `LoggerService.log_error` (logger.py
lines 147-158): timestamp, actor description, three blank cells (corrected
description, normative document, suggested measures), three blank chunk
cells, and the error message. -/
def error_row (timestamp : String) (user_id : Option Int)
    (error_message : String) : List String :=
  [timestamp, error_actor user_id, "", "", "", "", "", "", error_message]

/-- Data model of a ChromaDB metadata dictionary as read by
`RAGService.search_relevant_chunks` via `metadata.get(key, '')`
(rag_service.py lines 80-84).  A missing key is `none`. -/
structure ChromaMetadata where
  document_title : Option String
  document_number : Option String
  clause_number : Option String
  keywords : Option String
deriving DecidableEq

/-- Data model of the dictionary returned by `collection.query` with
`include=['metadatas', 'documents', 'distances']` (rag_service.py lines
64-68): parallel lists of per-query result lists.  Distances are modelled
by `ℚ`. -/
structure QueryResults where
  ids : List (List String)
  metadatas : List (List ChromaMetadata)
  documents : List (List String)
  distances : List (List ℚ)
deriving DecidableEq

/-- Embedding of rag_service.py line 73: `results['metadatas'][0][i] if
results['metadatas'] and results['metadatas'][0] else {}`.  An index `i`
out of range of a non-empty first sublist raises `IndexError`. -/
def metadata_used (res : QueryResults) (i : Nat) :
    Except String ChromaMetadata :=
  match res.metadatas with
  | [] => Except.ok ⟨none, none, none, none⟩
  | m0 :: _ =>
    match m0 with
    | [] => Except.ok ⟨none, none, none, none⟩
    | _ :: _ =>
      match m0.get? i with
      | some m => Except.ok m
      | none => Except.error "IndexError"

/-- Embedding of rag_service.py line 75: `results['documents'][0][i] if
results['documents'] and results['documents'][0] else ""`. -/
def document_used (res : QueryResults) (i : Nat) : Except String String :=
  match res.documents with
  | [] => Except.ok ""
  | d0 :: _ =>
    match d0 with
    | [] => Except.ok ""
    | _ :: _ =>
      match d0.get? i with
      | some d => Except.ok d
      | none => Except.error "IndexError"

/-- Embedding of rag_service.py line 76: `results['distances'][0][i] if
results['distances'] and results['distances'][0] else 0.0`. -/
def distance_used (res : QueryResults) (i : Nat) : Except String ℚ :=
  match res.distances with
  | [] => Except.ok 0
  | q0 :: _ =>
    match q0 with
    | [] => Except.ok 0
    | _ :: _ =>
      match q0.get? i with
      | some q => Except.ok q
      | none => Except.error "IndexError"

/-- Embedding of the chunk construction of rag_service.py lines 72-87 for
loop index `i` and identifier `doc_id`: metadata, document and distance are
looked up in source order, and the relevance score is `1.0 - distance`
(line 85, no clamping). -/
def buildChunk (res : QueryResults) (i : Nat) (doc_id : String) :
    Except String RAGChunk :=
  match metadata_used res i with
  | Except.error e => Except.error e
  | Except.ok metadata =>
    match document_used res i with
    | Except.error e => Except.error e
    | Except.ok document =>
      match distance_used res i with
      | Except.error e => Except.error e
      | Except.ok distance =>
        Except.ok
          { document_id := doc_id
            document_title := metadata.document_title.getD ""
            document_number := metadata.document_number.getD ""
            clause_number := metadata.clause_number.getD ""
            clause_text := document
            relevance_score := 1 - distance }

/-- Embedding of the result loop of rag_service.py lines 71-87:
`for i, doc_id in enumerate(results['ids'][0])`, accumulating chunks; any
raised `IndexError` aborts the whole loop. -/
def buildChunks (res : QueryResults) : Nat → List String →
    Except String (List RAGChunk)
  | _, [] => Except.ok []
  | i, doc_id :: rest =>
    match buildChunk res i doc_id with
    | Except.error e => Except.error e
    | Except.ok c =>
      match buildChunks res (i + 1) rest with
      | Except.error e => Except.error e
      | Except.ok cs => Except.ok (c :: cs)

/-- Embedding of `RAGService.search_relevant_chunks` (rag_service.py lines
51-97), parameterised by the outcome of the `collection.query` call.  A
raised exception is caught and yields `[]`; an empty or absent first id
list skips the loop and yields `[]`; an `IndexError` inside the loop is
caught by the same outer handler and also yields `[]`. -/
def search_relevant_chunks (queryResult : Except String QueryResults) :
    List RAGChunk :=
  match queryResult with
  | Except.error _ => []
  | Except.ok res =>
    match res.ids with
    | [] => []
    | ids0 :: _ =>
      match ids0 with
      | [] => []
      | d :: ds =>
        match buildChunks res 0 (d :: ds) with
        | Except.error _ => []
        | Except.ok chunks => chunks

/-- Conversation state of the controller (`handlers/base.py`
`ViolationStates`): `awaitingInput` is `waiting_for_voice`; `idle` is the
cleared FSM state (`state.clear()`). -/
inductive ConversationState where
  | idle : ConversationState
  | awaitingInput : ConversationState
deriving DecidableEq

/-- Embedding of `VoiceHandler._format_response` (voice.py lines 254-280):
the user-facing reply text.  Python interpolates `None` as the literal
string "None" in the error branch. -/
def format_response (ai : ViolationResponse) (original_text : String) :
    String :=
  if ai.success = false then
    "❌ **Ошибка анализа нарушения**\n\n**Исходный текст:** " ++
      original_text ++ "\n\n**Ошибка:** " ++
      (match ai.error_message with
        | some m => m
        | none => "None") ++
      "\n\nПопробуйте отправить более подробное описание нарушения."
  else
    "✅ **Анализ нарушения завершен**\n\n📝 **Исходный текст:**\n`" ++
      original_text ++ "`\n\n✍️ **Скорректированное описание:**\n" ++
      ai.corrected_description ++ "\n\n📖 **Нормативный документ:**\n_" ++
      ai.document_info ++
      "_\n\n❗ **Предлагаемые меры по устранению:**\n" ++ ai.suggestions ++
      "\n\n---\nНажмите кнопку ниже для нового нарушения:"

/-- Branch taken by a run of `VoiceHandler.handle_voice_message` (voice.py
lines 45-158), determined by the validation, transcription, retrieval and
analysis outcomes of that turn:
invalid voice (lines 50-57), transcription failure (lines 66-73),
recognised text failing validation (lines 76-84), the pipeline completing
(lines 86-144), or an unhandled exception in the `try` body with text `e`
(lines 146-158). -/
inductive VoiceOutcome where
  | invalidVoice (err : String) : VoiceOutcome
  | recognitionFailed (err : String) : VoiceOutcome
  | invalidRecognizedText (err : String) : VoiceOutcome
  | completed (text : String) (ai : ViolationResponse) : VoiceOutcome
  | pipelineException (e : String) : VoiceOutcome

/-- Embedding of `VoiceHandler.handle_voice_message` (voice.py lines
45-158), entered in state `awaitingInput`: returns the texts passed to
`message.answer` and the final conversation state (`state.clear()` is the
transition to `idle`).  Every branch of the source ends in
`await state.clear()`. -/
def handle_voice_message : VoiceOutcome → List String × ConversationState
  | VoiceOutcome.invalidVoice err =>
      (["❌ " ++ err ++
          "\n\nПопробуйте отправить голосовое сообщение заново."],
        ConversationState.idle)
  | VoiceOutcome.recognitionFailed err =>
      (["🔄 Обрабатываю голосовое сообщение...",
        "❌ Ошибка распознавания речи: " ++ err ++
          "\n\nПопробуйте отправить сообщение заново или используйте текстовый ввод."],
        ConversationState.idle)
  | VoiceOutcome.invalidRecognizedText err =>
      (["🔄 Обрабатываю голосовое сообщение...",
        "❌ Распознанный текст слишком короткий или неполный: " ++ err ++
          "\n\nПопробуйте отправить более четкое голосовое сообщение."],
        ConversationState.idle)
  | VoiceOutcome.completed text ai =>
      (["🔄 Обрабатываю голосовое сообщение...",
        format_response ai text],
        ConversationState.idle)
  | VoiceOutcome.pipelineException e =>
      (["🔄 Обрабатываю голосовое сообщение...",
        "❌ Произошла ошибка при обработке: " ++ e ++
          "\n\nПопробуйте позже."],
        ConversationState.idle)

/-- Branch taken by a run of `VoiceHandler.handle_text_message` (voice.py
lines 160-244): invalid text (lines 165-172), the pipeline completing
(lines 174-232), or an unhandled exception with text `e` (lines 234-244). -/
inductive TextOutcome where
  | invalidText (err : String) : TextOutcome
  | completed (text : String) (ai : ViolationResponse) : TextOutcome
  | pipelineException (e : String) : TextOutcome

/-- Embedding of `VoiceHandler.handle_text_message` (voice.py lines
160-244), entered in state `awaitingInput`: emitted answer texts and final
conversation state.  Every branch of the source ends in
`await state.clear()`. -/
def handle_text_message : TextOutcome → List String × ConversationState
  | TextOutcome.invalidText err =>
      (["❌ " ++ err ++
          "\n\nПожалуйста, отправьте голосовое сообщение или более подробное текстовое описание."],
        ConversationState.idle)
  | TextOutcome.completed text ai =>
      (["🔄 Анализирую нарушение...", format_response ai text],
        ConversationState.idle)
  | TextOutcome.pipelineException e =>
      (["🔄 Анализирую нарушение...",
        "❌ Произошла ошибка при обработке: " ++ e ++
          "\n\nПопробуйте позже."],
        ConversationState.idle)

/-- Embedding of `VoiceHandler.handle_other_message` (voice.py lines
246-252), entered in state `awaitingInput`: the fixed rejection prompt and
the cleared state. -/
def handle_other_message : List String × ConversationState :=
  (["❌ Пожалуйста, отправьте голосовое сообщение или текстовое описание нарушения."],
    ConversationState.idle)

/-! Helper lemmas shared by several proofs. -/

/-- Appending to a non-empty string never yields the empty string. -/
theorem append_ne_empty_of_left (s t : String) (hs : s.length ≠ 0) :
    s ++ t ≠ "" := by
  intro h
  have h1 := congrArg String.length h
  rw [String.length_append] at h1
  have h2 : ("" : String).length = 0 := rfl
  omega

/-- C1: in `_parse_ai_response`, when the document section extraction is
empty, the document field is the top-ranked chunk's
`title, number, clause` citation when chunks exist and stays `""` when the
chunk list is empty; a non-empty extracted document section is returned
unchanged, never overwritten by the chunk-derived citation. -/
theorem document_citation_fallback (response corrected0 suggestions0 :
    String) :
    (∀ (best : RAGChunk) (rest : List RAGChunk),
      (parse_ai_response response (best :: rest) corrected0 ""
          suggestions0).document_info =
        best.document_title ++ ", " ++ best.document_number ++ ", " ++
          best.clause_number) ∧
    ((parse_ai_response response [] corrected0 ""
        suggestions0).document_info = "") ∧
    (∀ (chunks : List RAGChunk) (document0 : String), document0 ≠ "" →
      (parse_ai_response response chunks corrected0 document0
          suggestions0).document_info = document0) := by
  refine ⟨fun best rest => ?_, ?_, fun chunks document0 h => ?_⟩
  · simp [parse_ai_response]
  · simp [parse_ai_response]
  · simp [parse_ai_response, h]

/-- Witness for `document_citation_fallback` at concrete inputs. -/
theorem document_citation_fallback_witness :
    ((parse_ai_response "r" [⟨"id", "СП 9.13130.2009", "9.13130.2009",
        "4.1.3", "текст", 1⟩] "" "" "").document_info =
      "СП 9.13130.2009" ++ ", " ++ "9.13130.2009" ++ ", " ++ "4.1.3") ∧
    ((parse_ai_response "r" [] "" "" "").document_info = "") ∧
    ((parse_ai_response "r" [] "" "СНиП 3.03.01-87" "").document_info =
      "СНиП 3.03.01-87") :=
  ⟨(document_citation_fallback "r" "" "").1
      ⟨"id", "СП 9.13130.2009", "9.13130.2009", "4.1.3", "текст", 1⟩ [],
    (document_citation_fallback "r" "" "").2.1,
    (document_citation_fallback "r" "" "").2.2 [] "СНиП 3.03.01-87"
      (by decide)⟩

/-- C2 counterexample: the raw model reply `"hello\n"` contains none of
the three labels (so its three section extractions are all empty), yet
`analyze_violation` returns the stripped reply `"hello"` as the corrected
description, not the entire raw reply `"hello\n"` — the reply is passed
through `.strip()` in `_get_openai_response` before parsing. -/
theorem analyze_raw_reply_cex :
    (analyze_violation (Except.ok "hello\n") (fun _ => ("", "", ""))
        []).success = true ∧
    (analyze_violation (Except.ok "hello\n") (fun _ => ("", "", ""))
        []).corrected_description = "hello" ∧
    (analyze_violation (Except.ok "hello\n") (fun _ => ("", "", ""))
        []).corrected_description ≠ "hello\n" := by
  refine ⟨by decide, by decide, by decide⟩

/-- C2 (amended): for every raw model reply whose whitespace-stripped form
has none of the three labeled sections parse, `analyze_violation` returns
`success = true` with the whitespace-stripped raw reply as the corrected
description (hence the entire raw reply whenever it carries no surrounding
whitespace). -/
theorem analyze_all_labels_missing (content : String)
    (extract : String → String × String × String) (chunks : List RAGChunk)
    (h : extract (pyStrip content) = ("", "", "")) :
    (analyze_violation (Except.ok content) extract chunks).success =
      true ∧
    (analyze_violation (Except.ok content) extract
        chunks).corrected_description = pyStrip content := by
  simp [analyze_violation, get_openai_response, h, parse_ai_response]

/-- Witness for `analyze_all_labels_missing` at a concrete reply. -/
theorem analyze_all_labels_missing_witness :
    (analyze_violation (Except.ok "свободный текст без меток")
        (fun _ => ("", "", "")) []).success = true ∧
    (analyze_violation (Except.ok "свободный текст без меток")
        (fun _ => ("", "", "")) []).corrected_description =
      pyStrip "свободный текст без меток" :=
  analyze_all_labels_missing "свободный текст без меток"
    (fun _ => ("", "", "")) [] rfl

/-- C3: when the generation-model call raises, `analyze_violation` catches
the exception and returns `success = false` with the three fixed
placeholder sentences and a non-empty error message; being a total
function of the call outcome, it propagates no exception. -/
theorem analyze_violation_error_path (e : String)
    (extract : String → String × String × String)
    (chunks : List RAGChunk) :
    analyze_violation (Except.error e) extract chunks =
      { corrected_description := "Ошибка анализа нарушения"
        document_info := "Не удалось определить нормативный документ"
        suggestions := "Попробуйте повторить описание нарушения"
        success := false
        error_message :=
          some ("Ошибка получения ответа от OpenAI: " ++ e) } ∧
    ("Ошибка получения ответа от OpenAI: " ++ e) ≠ "" := by
  refine ⟨rfl, append_ne_empty_of_left _ _ (by decide)⟩

/-- Witness for `analyze_violation_error_path` at a concrete exception. -/
theorem analyze_violation_error_path_witness :
    analyze_violation (Except.error "connection reset")
        (fun _ => ("", "", "")) [] =
      { corrected_description := "Ошибка анализа нарушения"
        document_info := "Не удалось определить нормативный документ"
        suggestions := "Попробуйте повторить описание нарушения"
        success := false
        error_message :=
          some ("Ошибка получения ответа от OpenAI: " ++
            "connection reset") } ∧
    ("Ошибка получения ответа от OpenAI: " ++ "connection reset") ≠ "" :=
  analyze_violation_error_path "connection reset" (fun _ => ("", "", "")) []

/-- Padding a list of at most 3 strings with `pad3` appends exactly the
missing number of empty strings. -/
theorem pad3_eq_of_le (l : List String) (h : l.length ≤ 3) :
    pad3 l = l ++ List.replicate (3 - l.length) "" := by
  generalize hn : 3 - l.length = n
  induction n generalizing l with
  | zero =>
      have h3 : ¬ l.length < 3 := by omega
      rw [pad3, dif_neg h3]
      simp [hn]
  | succ n ih =>
      have h3 : l.length < 3 := by omega
      rw [pad3, dif_pos h3]
      rw [ih (l ++ [""]) (by simp; omega)
        (by simp only [List.length_append, List.length_cons,
          List.length_nil]; omega)]
      rw [List.append_assoc]
      simp [List.replicate_succ]

/-- The rendering loop yields one string per input chunk. -/
theorem render_chunks_go_length (i : Nat) (l : List ChunkDict) :
    (render_chunks_go i l).length = l.length := by
  induction l generalizing i with
  | nil => rfl
  | cons c rest ih => simp [render_chunks_go, ih]

/-- C4: `_format_chunks` always yields exactly 3 slots: the first
`min N 3` slots are the rendered fragments in order (1-based counters),
fragments beyond the third are dropped by `chunks[:3]`, and the remaining
slots are empty-string padding. -/
theorem format_chunks_three_slots (chunks : List ChunkDict) :
    format_chunks chunks =
      render_chunks_go 1 (chunks.take 3) ++
        List.replicate (3 - min chunks.length 3) "" ∧
    (format_chunks chunks).length = 3 := by
  have hlen : (render_chunks_go 1 (chunks.take 3)).length =
      min chunks.length 3 := by
    rw [render_chunks_go_length, List.length_take]
    omega
  have hle : (render_chunks_go 1 (chunks.take 3)).length ≤ 3 := by
    rw [hlen]; omega
  have hmain : format_chunks chunks =
      render_chunks_go 1 (chunks.take 3) ++
        List.replicate (3 - min chunks.length 3) "" := by
    rw [format_chunks, pad3_eq_of_le _ hle, hlen]
  refine ⟨hmain, ?_⟩
  rw [hmain]
  simp only [List.length_append, List.length_replicate, hlen]
  omega

/-- C5: in the rendered fragment, clause text longer than 200 characters
appears as exactly its first 200 characters followed by the ellipsis
marker, and clause text of at most 200 characters appears unchanged. -/
theorem rendered_clause_truncation (idx : Nat) (c : ChunkDict) :
    ((c.clause_text.getD "").length > 200 →
      renderChunk idx c =
        "Чанк " ++ toString idx ++ ":\n" ++ "Документ: " ++
          c.document_title.getD "" ++ " " ++ c.document_number.getD "" ++
          ", п." ++ c.clause_number.getD "" ++ "\n" ++ "Текст: " ++
          ((c.clause_text.getD "").take 200 ++ "...")) ∧
    ((c.clause_text.getD "").length ≤ 200 →
      renderChunk idx c =
        "Чанк " ++ toString idx ++ ":\n" ++ "Документ: " ++
          c.document_title.getD "" ++ " " ++ c.document_number.getD "" ++
          ", п." ++ c.clause_number.getD "" ++ "\n" ++ "Текст: " ++
          c.clause_text.getD "") := by
  constructor
  · intro h
    rw [renderChunk, truncate200, if_pos h]
  · intro h
    rw [renderChunk, truncate200, if_neg (by omega)]

/-- Witness for `rendered_clause_truncation`: a 201-character clause text
is truncated, an 8-character one passes through. -/
theorem rendered_clause_truncation_witness :
    renderChunk 1 ⟨some "СП 9", some "9.13130", some "4.1.3",
        some (List.replicate 201 'a').asString⟩ =
      "Чанк " ++ toString 1 ++ ":\n" ++ "Документ: " ++ "СП 9" ++ " " ++
        "9.13130" ++ ", п." ++ "4.1.3" ++ "\n" ++ "Текст: " ++
        (((List.replicate 201 'a').asString).take 200 ++ "...") ∧
    renderChunk 2 ⟨some "СП 9", some "9.13130", some "4.1.3",
        some "короткий"⟩ =
      "Чанк " ++ toString 2 ++ ":\n" ++ "Документ: " ++ "СП 9" ++ " " ++
        "9.13130" ++ ", п." ++ "4.1.3" ++ "\n" ++ "Текст: " ++
        "короткий" :=
  ⟨(rendered_clause_truncation 1 ⟨some "СП 9", some "9.13130",
      some "4.1.3", some (List.replicate 201 'a').asString⟩).1 (by simp),
    (rendered_clause_truncation 2 ⟨some "СП 9", some "9.13130",
      some "4.1.3", some "короткий"⟩).2 (by decide)⟩

/-- C6 counterexample: the row written by `log_error` does not have the
claimed shape [timestamp, actor-description, four blank placeholders,
three blank fragment placeholders, error message] — that shape has 10
cells while the appended row has 9 (only three blank placeholders sit
between the actor description and the fragment cells). -/
theorem error_row_layout_cex :
    error_row "2024-01-01 00:00:00" none "boom" ≠
      ["2024-01-01 00:00:00", error_actor none] ++ List.replicate 4 "" ++
        List.replicate 3 "" ++ ["boom"] := by
  decide

/-- C6 (amended): every row appended by `log_error` has the fixed 9-column
layout [timestamp, actor-description, three blank placeholders, three
blank fragment placeholders, error message]. -/
theorem error_row_layout (timestamp : String) (user_id : Option Int)
    (msg : String) :
    error_row timestamp user_id msg =
      [timestamp, error_actor user_id] ++ List.replicate 3 "" ++
        List.replicate 3 "" ++ [msg] ∧
    (error_row timestamp user_id msg).length = 9 :=
  ⟨rfl, rfl⟩

/-- Every rendered fragment string is non-empty (it starts with the fixed
"Чанк" header). -/
theorem renderChunk_ne_empty (idx : Nat) (c : ChunkDict) :
    renderChunk idx c ≠ "" := by
  intro h
  have h1 := congrArg String.length h
  simp only [renderChunk, String.length_append] at h1
  have h2 : ("Чанк " : String).length = 5 := rfl
  have h3 : ("" : String).length = 0 := rfl
  omega

/-- Every member of the rendering loop's output is a rendered fragment. -/
theorem render_chunks_go_mem (s : String) :
    ∀ (i : Nat) (l : List ChunkDict), s ∈ render_chunks_go i l →
      ∃ j c, s = renderChunk j c := by
  intro i l
  induction l generalizing i with
  | nil => intro h; simp [render_chunks_go] at h
  | cons c rest ih =>
      intro h
      simp only [render_chunks_go, List.mem_cons] at h
      rcases h with h | h
      · exact ⟨i, c, h⟩
      · exact ih (i + 1) h

/-- Filtering the empty strings out of a padded list of non-empty strings
returns the unpadded list. -/
theorem filter_padding (l : List String) (hl : ∀ s ∈ l, s ≠ "")
    (n : Nat) :
    (l ++ List.replicate n "").filter (fun c => c ≠ "") = l := by
  rw [List.filter_append]
  have h1 : l.filter (fun c => c ≠ "") = l := by
    rw [List.filter_eq_self]
    intro a ha
    simpa using hl a ha
  have h2 : (List.replicate n "").filter
      (fun c => (c : String) ≠ "") = [] := by
    induction n with
    | zero => rfl
    | succ n ih => simp [List.replicate_succ, List.filter_cons, ih]
  rw [h1, h2, List.append_nil]

/-- C10: the joined fragment cell of `_format_violation_data` filters the
empty padded slots away before joining: it is exactly the rendered
fragments of the first three chunks joined with the fixed separator
(separators strictly between them), and the empty string when the chunk
list is empty. -/
theorem joined_chunks_skips_padding (chunks : List ChunkDict) :
    joined_chunks chunks =
      String.intercalate chunkSeparator
        (render_chunks_go 1 (chunks.take 3)) ∧
    (chunks = [] → joined_chunks chunks = "") := by
  have hrend : ∀ s ∈ render_chunks_go 1 (chunks.take 3), s ≠ "" := by
    intro s hs
    obtain ⟨j, c, rfl⟩ := render_chunks_go_mem s 1 (chunks.take 3) hs
    exact renderChunk_ne_empty j c
  have hle : (render_chunks_go 1 (chunks.take 3)).length ≤ 3 := by
    rw [render_chunks_go_length, List.length_take]
    omega
  have key : joined_chunks chunks =
      String.intercalate chunkSeparator
        (render_chunks_go 1 (chunks.take 3)) := by
    rw [joined_chunks, format_chunks, pad3_eq_of_le _ hle,
      filter_padding _ hrend]
  refine ⟨key, fun hc => ?_⟩
  subst hc
  rw [key]
  rfl

/-- Witness for `joined_chunks_skips_padding`: the empty chunk list joins
to the empty string. -/
theorem joined_chunks_skips_padding_witness : joined_chunks [] = "" :=
  (joined_chunks_skips_padding []).2 rfl

/-- C7: `search_relevant_chunks` fails soft — a raised index-query
exception yields the empty list, a query with no (or an empty) first id
list yields the empty list, and being a total function of the query
outcome it propagates no exception to its caller. -/
theorem search_fails_soft :
    (∀ e, search_relevant_chunks (Except.error e) = []) ∧
    (∀ res : QueryResults, res.ids.headD [] = [] →
      search_relevant_chunks (Except.ok res) = []) := by
  constructor
  · intro e
    rfl
  · intro res h
    obtain ⟨ids, metas, docs, dists⟩ := res
    cases ids with
    | nil => rfl
    | cons ids0 rest =>
        simp only [List.headD_cons] at h
        subst h
        rfl

/-- Witness for `search_fails_soft`: a raised exception and an empty
result set both yield the empty list. -/
theorem search_fails_soft_witness :
    search_relevant_chunks (Except.error "query failed") = [] ∧
    search_relevant_chunks (Except.ok ⟨[[]], [], [], []⟩) = [] :=
  ⟨search_fails_soft.1 "query failed",
    search_fails_soft.2 ⟨[[]], [], [], []⟩ rfl⟩

/-- Every chunk in an accumulated loop result comes from some successful
`buildChunk` step. -/
theorem buildChunks_mem (res : QueryResults) :
    ∀ (l : List String) (i : Nat) (cs : List RAGChunk),
      buildChunks res i l = Except.ok cs →
      ∀ c ∈ cs, ∃ j doc, buildChunk res j doc = Except.ok c := by
  intro l
  induction l with
  | nil =>
      intro i cs h c hc
      simp only [buildChunks] at h
      cases h
      simp at hc
  | cons d rest ih =>
      intro i cs h c hc
      simp only [buildChunks] at h
      cases h1 : buildChunk res i d with
      | error e => rw [h1] at h; cases h
      | ok c0 =>
          rw [h1] at h
          cases h2 : buildChunks res (i + 1) rest with
          | error e => rw [h2] at h; cases h
          | ok cs0 =>
              rw [h2] at h
              cases h
              rcases List.mem_cons.mp hc with rfl | hmem
              · exact ⟨i, d, h1⟩
              · exact ih (i + 1) cs0 h2 c hmem

/-- A successfully built chunk carries the score `1 - d` for the distance
`d` the loop looked up for it. -/
theorem buildChunk_score (res : QueryResults) (j : Nat) (doc : String)
    (c : RAGChunk) (h : buildChunk res j doc = Except.ok c) :
    ∃ d, distance_used res j = Except.ok d ∧
      c.relevance_score = 1 - d := by
  unfold buildChunk at h
  cases h1 : metadata_used res j with
  | error e => rw [h1] at h; cases h
  | ok m =>
      rw [h1] at h
      cases h2 : document_used res j with
      | error e => rw [h2] at h; cases h
      | ok docu =>
          rw [h2] at h
          cases h3 : distance_used res j with
          | error e => rw [h3] at h; cases h
          | ok dist =>
              rw [h3] at h
              cases h
              exact ⟨dist, rfl, rfl⟩

/-- C8 counterexample: on a query result whose reported distance is `2`,
`search_relevant_chunks` returns a fragment with relevance score
`1 - 2 = -1`, which does not lie in `[0, 1]` — the score is the claimed
`1 - distance` but is not clamped to the unit interval. -/
theorem search_relevance_score_cex :
    (search_relevant_chunks
        (Except.ok ⟨[["id1"]], [], [], [[(2 : ℚ)]]⟩)).map
      (fun c => c.relevance_score) = [(-1 : ℚ)] ∧
    ¬ ((0 : ℚ) ≤ -1 ∧ (-1 : ℚ) ≤ 1) := by
  constructor
  · simp [search_relevant_chunks, buildChunks, buildChunk, metadata_used,
      document_used, distance_used]
    norm_num
  · intro hh
    have h0 := hh.1
    norm_num at h0

/-- C8 (amended): every fragment returned by `search_relevant_chunks`
carries the relevance score `1 - d`, where `d` is the distance the loop
looked up for it from the index result (`0` when no distances were
reported); that score lies in `[0, 1]` exactly when `d` does — the code
performs no clamping. -/
theorem search_relevance_score (res : QueryResults) (c : RAGChunk)
    (hc : c ∈ search_relevant_chunks (Except.ok res)) :
    ∃ j d, distance_used res j = Except.ok d ∧
      c.relevance_score = 1 - d ∧
      ((0 ≤ c.relevance_score ∧ c.relevance_score ≤ 1) ↔
        (0 ≤ d ∧ d ≤ 1)) := by
  obtain ⟨ids, metas, docs, dists⟩ := res
  cases ids with
  | nil => simp [search_relevant_chunks] at hc
  | cons ids0 rest =>
      cases ids0 with
      | nil => simp [search_relevant_chunks] at hc
      | cons d0 ds =>
          cases hb : buildChunks ⟨(d0 :: ds) :: rest, metas, docs, dists⟩ 0
              (d0 :: ds) with
          | error e => simp [search_relevant_chunks, hb] at hc
          | ok cs =>
              simp only [search_relevant_chunks, hb] at hc
              obtain ⟨j, doc, hjd⟩ :=
                buildChunks_mem ⟨(d0 :: ds) :: rest, metas, docs, dists⟩
                  (d0 :: ds) 0 cs hb c hc
              obtain ⟨dq, hdq, hscore⟩ :=
                buildChunk_score ⟨(d0 :: ds) :: rest, metas, docs, dists⟩
                  j doc c hjd
              refine ⟨j, dq, hdq, hscore, ?_⟩
              rw [hscore]
              constructor
              · intro hh
                exact ⟨by linarith [hh.2], by linarith [hh.1]⟩
              · intro hh
                exact ⟨by linarith [hh.2], by linarith [hh.1]⟩

/-- Witness for `search_relevance_score` at a concrete one-result query
with distance `1/2`. -/
theorem search_relevance_score_witness :
    ∃ j d,
      distance_used ⟨[["id1"]], [[⟨some "СП 9", some "9.13130",
          some "4.1.3", none⟩]], [["текст"]], [[(1 : ℚ)/2]]⟩ j =
        Except.ok d ∧
      (⟨"id1", "СП 9", "9.13130", "4.1.3", "текст",
          1 - (1 : ℚ)/2⟩ : RAGChunk).relevance_score = 1 - d ∧
      ((0 ≤ (⟨"id1", "СП 9", "9.13130", "4.1.3", "текст",
          1 - (1 : ℚ)/2⟩ : RAGChunk).relevance_score ∧
        (⟨"id1", "СП 9", "9.13130", "4.1.3", "текст",
          1 - (1 : ℚ)/2⟩ : RAGChunk).relevance_score ≤ 1) ↔
        (0 ≤ d ∧ d ≤ 1)) :=
  search_relevance_score
    ⟨[["id1"]], [[⟨some "СП 9", some "9.13130", some "4.1.3", none⟩]],
      [["текст"]], [[(1 : ℚ)/2]]⟩
    ⟨"id1", "СП 9", "9.13130", "4.1.3", "текст", 1 - (1 : ℚ)/2⟩
    (by simp [search_relevant_chunks, buildChunks, buildChunk,
      metadata_used, document_used, distance_used])

/-- C9: every handler registered for the `AwaitingInput` state — voice,
text, and any other message kind — ends its turn with the state cleared
back to `Idle`, whatever branch the turn takes (validation failure,
transcription failure, completed pipeline, or an unhandled pipeline
exception); the controller never remains in `AwaitingInput` after its
final response. -/
theorem handlers_return_to_idle :
    (∀ o : VoiceOutcome,
      (handle_voice_message o).2 = ConversationState.idle ∧
      (handle_voice_message o).2 ≠ ConversationState.awaitingInput) ∧
    (∀ o : TextOutcome,
      (handle_text_message o).2 = ConversationState.idle ∧
      (handle_text_message o).2 ≠ ConversationState.awaitingInput) ∧
    (handle_other_message.2 = ConversationState.idle ∧
      handle_other_message.2 ≠ ConversationState.awaitingInput) := by
  refine ⟨fun o => ?_, fun o => ?_,
    ⟨rfl, fun hcontra => ConversationState.noConfusion hcontra⟩⟩
  · cases o <;>
      exact ⟨rfl, fun hcontra => ConversationState.noConfusion hcontra⟩
  · cases o <;>
      exact ⟨rfl, fun hcontra => ConversationState.noConfusion hcontra⟩

/-- Witness for `handlers_return_to_idle` at a concrete unhandled
exception turn. -/
theorem handlers_return_to_idle_witness :
    (handle_voice_message (VoiceOutcome.pipelineException "boom")).2 =
      ConversationState.idle ∧
    (handle_voice_message (VoiceOutcome.pipelineException "boom")).2 ≠
      ConversationState.awaitingInput :=
  handlers_return_to_idle.1 (VoiceOutcome.pipelineException "boom")

end StroyK
